import Mathlib

/-!
Shallow embedding of the quota / subscription / conversation-session core of
the TurboScribe Telegram bot (files `database/models.py`, `bot_simple.py`,
`bot/handlers.py`, `processors/audio_processor.py`, `bot/config.py`).

The relational store is modelled as association lists:
  - `subs`    : user_id ↦ subscription row (`user_subscriptions` table),
  - `usage`   : (user_id, usage_date) ↦ requests_count (`daily_usage` table),
  - `history` : number of rows of the append-only `request_history` table.
Timestamps are abstract integers (one unit = one day, so
`timedelta(days = d)` is `+ d`); calendar dates are naturals.  Each `async`
database method becomes a pure state transformer `DB → result × DB`.
-/

/-- First-match association-list lookup (models `SELECT ... WHERE key = $1`). -/
def lookupA {α β : Type} [DecidableEq α] : List (α × β) → α → Option β
  | [], _ => none
  | (k, v) :: rest, key => if k = key then some v else lookupA rest key

/-- Association-list upsert: replace the binding of `key` if present, else
append a fresh row (models `INSERT`/`UPDATE` keyed by a unique column). -/
def setA {α β : Type} [DecidableEq α] : List (α × β) → α → β → List (α × β)
  | [], key, v => [(key, v)]
  | (k, w) :: rest, key, v =>
      if k = key then (key, v) :: rest else (k, w) :: setA rest key v

/-- A row of the `user_subscriptions` table (columns read by the code). -/
structure SubRecord where
  is_premium : Bool
  subscription_start : Option Int
  subscription_end : Option Int
deriving DecidableEq, Repr

/-- The persistent store: subscriptions, the daily-usage ledger, and the
count of `request_history` rows. -/
structure DB where
  subs : List (Nat × SubRecord)
  usage : List ((Nat × Nat) × Nat)
  history : Nat
deriving DecidableEq, Repr

namespace Config

/-- From `bot/config.py`: `DAILY_FREE_REQUESTS = 1`. -/
def DAILY_FREE_REQUESTS : Nat := 1

/-- From `bot/config.py`: `MAX_FILE_SIZE_MB = 100`. -/
def MAX_FILE_SIZE_MB : Nat := 100

/-- From `bot/config.py` and `bot_simple.py` (the two sets are identical):
`SUPPORTED_AUDIO_FORMATS`. -/
def SUPPORTED_AUDIO_FORMATS : List String :=
  [".mp3", ".wav", ".m4a", ".ogg", ".flac", ".aac"]

/-- From `bot/config.py` and `bot_simple.py` (identical): `SUPPORTED_VIDEO_FORMATS`. -/
def SUPPORTED_VIDEO_FORMATS : List String :=
  [".mp4", ".mov", ".avi", ".mkv", ".webm"]

end Config

namespace Models

/-- Embeds `database/models.py` `get_daily_usage`: read the counter of today, `0` when no
row exists for `(user_id, CURRENT_DATE)`. -/
def get_daily_usage (db : DB) (user_id : Nat) (today : Nat) : Nat :=
  match lookupA db.usage (user_id, today) with
  | some c => c
  | none => 0

/-- Embeds `database/models.py` `increment_daily_usage`: the SQL
`INSERT ... VALUES ($1, 1) ON CONFLICT (user_id, usage_date)
DO UPDATE SET requests_count = requests_count + 1 RETURNING requests_count`
upsert, returning the new count. -/
def increment_daily_usage (db : DB) (user_id : Nat) (today : Nat) : Nat × DB :=
  match lookupA db.usage (user_id, today) with
  | none => (1, { db with usage := setA db.usage (user_id, today) 1 })
  | some c => (c + 1, { db with usage := setA db.usage (user_id, today) (c + 1) })

/-- Embeds `database/models.py` `is_user_premium`: no row or `is_premium` false ⇒
`False` (no write); `subscription_end` set and strictly before `now` ⇒
persist `is_premium = FALSE` and return `False`; otherwise `True`. -/
def is_user_premium (db : DB) (user_id : Nat) (now : Int) : Bool × DB :=
  match lookupA db.subs user_id with
  | none => (false, db)
  | some r =>
    if r.is_premium = false then (false, db)
    else
      match r.subscription_end with
      | some e =>
        if e < now then
          (false, { db with subs := setA db.subs user_id ({ r with is_premium := false }) })
        else (true, db)
      | none => (true, db)

/-- Embeds `database/models.py` `activate_premium_subscription`: a bare SQL `UPDATE`
of the row of `user_id` — it writes nothing when no subscription row exists.
`subscription_end = now + duration_days`. -/
def activate_premium_subscription (db : DB) (user_id : Nat) (now : Int)
    (duration_days : Nat) : DB :=
  match lookupA db.subs user_id with
  | none => db
  | some _ =>
    let row : SubRecord :=
      { is_premium := true
        subscription_start := some now
        subscription_end := some (now + (duration_days : Int)) }
    { db with subs := setA db.subs user_id row }

/-- Embeds `database/models.py` `can_make_request`: premium check first (with its
lazy-expiry side effect), then the free-tier counter against
`Config.DAILY_FREE_REQUESTS`. -/
def can_make_request (db : DB) (user_id : Nat) (now : Int) (today : Nat) :
    (Bool × String) × DB :=
  let ip := is_user_premium db user_id now
  if ip.1 then ((true, "premium"), ip.2)
  else if get_daily_usage ip.2 user_id today < Config.DAILY_FREE_REQUESTS then
    ((true, "free"), ip.2)
  else ((false, "limit_exceeded"), ip.2)

/-- Embeds `database/models.py` `add_request_history`: append-only insert into
`request_history`, abstracted to its row count (no decision logic reads it). -/
def add_request_history (db : DB) : DB :=
  { db with history := db.history + 1 }

end Models

namespace Simple

/-- From `bot_simple.py`: `DAILY_FREE_REQUESTS = 3`. -/
def DAILY_FREE_REQUESTS : Nat := 3

/-- Embeds `bot_simple.py` `get_daily_usage`: `0` when `db_pool` is absent, `0` when
the read raises (the bare `except: return 0`), else the stored counter or `0`. -/
def get_daily_usage (db : DB) (user_id : Nat) (today : Nat)
    (pool raises : Bool) : Nat :=
  if pool = false then 0
  else if raises then 0
  else
    match lookupA db.usage (user_id, today) with
    | some c => c
    | none => 0

/-- Embeds `bot_simple.py` `increment_daily_usage`: returns `1` without writing when
`db_pool` is absent or the statement raises, else the upsert of
`database/models.py`. -/
def increment_daily_usage (db : DB) (user_id : Nat) (today : Nat)
    (pool raises : Bool) : Nat × DB :=
  if pool = false then (1, db)
  else if raises then (1, db)
  else
    match lookupA db.usage (user_id, today) with
    | none => (1, { db with usage := setA db.usage (user_id, today) 1 })
    | some c => (c + 1, { db with usage := setA db.usage (user_id, today) (c + 1) })

/-- Embeds `bot_simple.py` `is_user_premium`: `False` when `db_pool` is absent or the
read raises; when no row exists, insert a default `(user_id, FALSE)` row and
return `False`; expiry uses the same strict `subscription_end < now` as
`database/models.py`. -/
def is_user_premium (db : DB) (user_id : Nat) (now : Int)
    (pool raises : Bool) : Bool × DB :=
  if pool = false then (false, db)
  else if raises then (false, db)
  else
    match lookupA db.subs user_id with
    | none =>
      let row : SubRecord :=
        { is_premium := false, subscription_start := none, subscription_end := none }
      (false, { db with subs := setA db.subs user_id row })
    | some r =>
      if r.is_premium = false then (false, db)
      else
        match r.subscription_end with
        | some e =>
          if e < now then
            (false, { db with subs := setA db.subs user_id ({ r with is_premium := false }) })
          else (true, db)
        | none => (true, db)

/-- Embeds `bot_simple.py` `activate_premium_subscription`: a true upsert
(`INSERT ... ON CONFLICT (user_id) DO UPDATE`) setting
`is_premium = TRUE`, `subscription_start = now`,
`subscription_end = now + duration_days`; no-op without a pool or on error. -/
def activate_premium_subscription (db : DB) (user_id : Nat) (now : Int)
    (duration_days : Nat) (pool raises : Bool) : DB :=
  if pool = false then db
  else if raises then db
  else
    let row : SubRecord :=
      { is_premium := true
        subscription_start := some now
        subscription_end := some (now + (duration_days : Int)) }
    { db with subs := setA db.subs user_id row }

/-- Embeds `bot_simple.py` `can_make_request`: same shape as the
`database/models.py` version, with limit `3` and the degraded-mode flags
threaded through. -/
def can_make_request (db : DB) (user_id : Nat) (now : Int) (today : Nat)
    (pool raises : Bool) : (Bool × String) × DB :=
  let ip := is_user_premium db user_id now pool raises
  if ip.1 then ((true, "premium"), ip.2)
  else if get_daily_usage ip.2 user_id today pool raises < DAILY_FREE_REQUESTS then
    ((true, "free"), ip.2)
  else ((false, "limit_exceeded"), ip.2)

end Simple

/-- ASCII lowercasing of one character, matching how the Python `str.lower`
acts on the ASCII range (all configured extensions are ASCII). -/
def lowerChar (c : Char) : Char :=
  if 'A' ≤ c ∧ c ≤ 'Z' then Char.ofNat (c.toNat + 32) else c

/-- Models `filename.lower()` restricted to the ASCII range. -/
def lowerStr (s : String) : String :=
  String.mk (s.data.map lowerChar)

/-- Index of the last dot in a character list, if any. -/
def findLastDot : List Char → Option Nat
  | [] => none
  | c :: cs =>
    match findLastDot cs with
    | some i => some (i + 1)
    | none => if c = '.' then some 0 else none

/-- The extension part of the Python `os.path.splitext` for a bare filename:
the suffix from the last dot, unless every character before that dot is a dot
(so `".mp3"` has no extension). -/
def splitextExt (s : String) : String :=
  match findLastDot s.data with
  | none => ""
  | some i =>
    if (s.data.take i).all (fun c => c = '.') then ""
    else String.mk (s.data.drop i)

/-- Embeds `processors/audio_processor.py` `get_file_format` and the token-identical
`bot_simple.py` `get_file_format`: lowercase the filename, take its
extension, classify against the two configured extension sets. -/
def get_file_format (filename : String) : String × Bool :=
  let ext := splitextExt (lowerStr filename)
  if ext ∈ Config.SUPPORTED_AUDIO_FORMATS then ("audio", false)
  else if ext ∈ Config.SUPPORTED_VIDEO_FORMATS then ("video", true)
  else ("unsupported", false)

/-- The per-user FSM data saved by `bot/handlers.py` `handle_media_file` via
`state.update_data` (the `start_time` float is abstracted to an integer). -/
structure Session where
  transcription : String
  file_path : String
  filename : String
  file_type : String
  start_time : Int
deriving DecidableEq, Repr

/-- Embeds `state.set_state` plus `state.update_data` in `handle_media_file`: a new
session unconditionally replaces whatever session the user had. -/
def session_open (sess : Option Session) (transcription file_path filename
    file_type : String) (start_time : Int) : Option Session :=
  let _ := sess
  some
    { transcription := transcription
      file_path := file_path
      filename := filename
      file_type := file_type
      start_time := start_time }

/-- The lookup at the top of `handle_translation`: `state.get_data` followed
by the guard `if not data or "transcription" not in data`.  Yields the stored
transcription text and artifact path, or `none` for a missing session. -/
def session_resolve (sess : Option Session) : Option (String × String) :=
  match sess with
  | none => none
  | some s => some (s.transcription, s.file_path)

/-- Embeds `state.clear()`. -/
def session_close (sess : Option Session) : Option Session :=
  let _ := sess
  none

/-- Python truthiness test `if not x` for an optional string: `None` and the
empty string are falsy. -/
def pyFalsy : Option String → Bool
  | none => true
  | some s => s.isEmpty

/-- Embeds `processors/audio_processor.py` `process_file`.  External collaborators
are oracles: `procExc` models the `except` branch of the `try`, `extractOk`
the result of `extract_audio_from_video`, `transcribeRes` / `translateRes`
the optional strings returned by `transcribe_audio` / `translate_text`
(`none` models both `None` and a raised error, per their own `except`
branches).  Returns `(transcription?, translation?, status)`. -/
def process_file (filename : String) (procExc extractOk : Bool)
    (transcribeRes translateRes : Option String) :
    Option String × Option String × String :=
  let fmt := get_file_format filename
  if fmt.1 = "unsupported" then (none, none, "unsupported_format")
  else if procExc then (none, none, "processing_error")
  else if fmt.2 && !extractOk then (none, none, "extraction_failed")
  else if pyFalsy transcribeRes then (none, none, "transcription_failed")
  else if pyFalsy translateRes then (transcribeRes, none, "translation_failed")
  else (transcribeRes, translateRes, "success")

/-- User-visible outcome of the media-received path, named after the message
key `handle_media_file` answers with. -/
inductive MediaOutcome
  | limit_reached
  | unsupported_format
  | file_too_large
  | processing_error
  | no_transcription
  | transcription_complete
deriving DecidableEq, Repr

/-- Embeds the `error_msg` dictionary lookup (with default) in `handle_media_file`,
mapping a non-success `process_file` status to a message key. -/
def status_to_outcome (status : String) : MediaOutcome :=
  if status = "extraction_failed" then MediaOutcome.processing_error
  else if status = "transcription_failed" then MediaOutcome.no_transcription
  else if status = "processing_error" then MediaOutcome.processing_error
  else MediaOutcome.processing_error

/-- The parts of an inbound Telegram media message the handler inspects:
whether one of the five content-type branches matched (`hasFileInfo`), the
filename it computed, and the optional `file_size`. -/
structure MediaEvent where
  hasFileInfo : Bool
  filename : String
  file_size : Option Nat
deriving DecidableEq, Repr

/-- Embeds `bot/handlers.py` `handle_media_file` as a state transformer over the
store and the per-user session.  Guards in source order: entitlement
(`db.can_make_request`), file-info branch, size cap, format check; then the
`try` block: `get_file` (`getFileOk` false models its raising, caught by the
handler `except`), `download_file`, `process_file`; on success the session
is opened (`state.update_data`) and, only when the evaluated class is not
`"premium"`, `increment_daily_usage` runs.  The `finally` block only deletes
the temp download file of the handler, a filesystem effect outside this model. -/
def handle_media_file (db : DB) (user_id : Nat) (now : Int) (today : Nat)
    (sess : Option Session) (ev : MediaEvent) (start_time : Int)
    (getFileOk : Bool) (downloadRes : Option String)
    (procExc extractOk : Bool) (transcribeRes translateRes : Option String) :
    DB × Option Session × MediaOutcome :=
  let cm := Models.can_make_request db user_id now today
  let db1 := cm.2
  if cm.1.1 = false then (db1, sess, MediaOutcome.limit_reached)
  else if ev.hasFileInfo = false then (db1, sess, MediaOutcome.unsupported_format)
  else if (match ev.file_size with
           | some sz => decide (Config.MAX_FILE_SIZE_MB * 1024 * 1024 < sz)
           | none => false) = true then
    (db1, sess, MediaOutcome.file_too_large)
  else if (get_file_format ev.filename).1 = "unsupported" then
    (db1, sess, MediaOutcome.unsupported_format)
  else if getFileOk = false then (db1, sess, MediaOutcome.processing_error)
  else
    match downloadRes with
    | none => (db1, sess, MediaOutcome.processing_error)
    | some downloaded_path =>
      let pr := process_file ev.filename procExc extractOk transcribeRes translateRes
      if pr.2.2 ≠ "success" ∨ pyFalsy pr.1 = true then
        (db1, sess, status_to_outcome pr.2.2)
      else
        let sess2 := session_open sess (pr.1.getD "") downloaded_path
          ev.filename (get_file_format ev.filename).1 start_time
        if cm.1.2 ≠ "premium" then
          ((Models.increment_daily_usage db1 user_id today).2, sess2,
            MediaOutcome.transcription_complete)
        else (db1, sess2, MediaOutcome.transcription_complete)

/-- User-visible outcome of the language-selected path. -/
inductive TransOutcome
  | session_expired
  | translation_complete
  | translation_failed
deriving DecidableEq, Repr

/-- The cleanup in the `finally` block of `handle_translation`:
`if file_path and os.path.exists(file_path): os.remove(file_path)`.  The
filesystem is the set of existing paths, given as a duplicate-free list. -/
def removeFile (fs : List String) (p : String) : List String :=
  if p.isEmpty then fs
  else if p ∈ fs then fs.filter (fun q => q ≠ p) else fs

/-- Embeds `bot/handlers.py` `handle_translation` as a state transformer over the
store, the per-user session and the filesystem.  No live session ⇒ answer
"Session expired" and change nothing.  Otherwise translate (`translateRes`
is the collaborator oracle; `none` models both a falsy result and a raised
error, which the `except` turns into the same failed message); on success
append a `request_history` row; in both cases the `finally` block clears the
session and removes the artifact.  The daily-usage ledger is never touched
on this path. -/
def handle_translation (db : DB) (sess : Option Session) (fs : List String)
    (lang_code : String) (translateRes : Option String) :
    DB × Option Session × List String × TransOutcome :=
  let _ := lang_code
  match session_resolve sess with
  | none => (db, sess, fs, TransOutcome.session_expired)
  | some tp =>
    let file_path := tp.2
    if pyFalsy translateRes then
      (db, session_close sess, removeFile fs file_path, TransOutcome.translation_failed)
    else
      (Models.add_request_history db, session_close sess,
        removeFile fs file_path, TransOutcome.translation_complete)

/-- Iterated `database/models.py` `increment_daily_usage` for the same user
and day: the store after `n` accounted free requests. -/
def iterIncr (db : DB) (user_id : Nat) (today : Nat) : Nat → DB
  | 0 => db
  | n + 1 => (Models.increment_daily_usage (iterIncr db user_id today n) user_id today).2

theorem lookupA_setA_self {α β : Type} [DecidableEq α] (l : List (α × β)) (k : α) (v : β) :
    lookupA (setA l k v) k = some v := by
  induction l with
  | nil => simp [setA, lookupA]
  | cons hd tl ih =>
    obtain ⟨k0, v0⟩ := hd
    by_cases h : k0 = k
    · subst h
      simp [setA, lookupA]
    · simp [setA, lookupA, h, ih]

theorem removeFile_not_mem (fs : List String) (p : String) (h : p.isEmpty = false) :
    p ∉ removeFile fs p := by
  unfold removeFile
  rw [h]
  by_cases hm : p ∈ fs
  · simp [hm, List.mem_filter]
  · simp [hm]

theorem models_is_user_premium_state (db : DB) (uid : Nat) (now : Int) :
    ((Models.is_user_premium db uid now).2).usage = db.usage ∧
    ((Models.is_user_premium db uid now).2).history = db.history := by
  unfold Models.is_user_premium
  repeat' split
  all_goals exact ⟨rfl, rfl⟩

theorem models_get_daily_usage_congr (db db2 : DB) (uid today : Nat)
    (h : db2.usage = db.usage) :
    Models.get_daily_usage db2 uid today = Models.get_daily_usage db uid today := by
  unfold Models.get_daily_usage
  rw [h]

theorem models_can_make_request_state (db : DB) (uid : Nat) (now : Int) (today : Nat) :
    ((Models.can_make_request db uid now today).2).usage = db.usage ∧
    ((Models.can_make_request db uid now today).2).history = db.history := by
  have h := models_is_user_premium_state db uid now
  simp only [Models.can_make_request]
  repeat' split
  all_goals exact h

theorem models_increment_get (db : DB) (uid today : Nat) :
    Models.get_daily_usage ((Models.increment_daily_usage db uid today).2) uid today =
      Models.get_daily_usage db uid today + 1 ∧
    (Models.increment_daily_usage db uid today).1 =
      Models.get_daily_usage db uid today + 1 := by
  unfold Models.increment_daily_usage Models.get_daily_usage
  cases h : lookupA db.usage (uid, today) with
  | none => simp [h, lookupA_setA_self]
  | some c => simp [h, lookupA_setA_self]

theorem simple_is_user_premium_usage (db : DB) (uid : Nat) (now : Int) (pool raises : Bool) :
    ((Simple.is_user_premium db uid now pool raises).2).usage = db.usage := by
  unfold Simple.is_user_premium
  repeat' split
  all_goals rfl

theorem models_is_user_premium_fst (db : DB) (uid : Nat) (now : Int) :
    (Models.is_user_premium db uid now).1 =
      (match lookupA db.subs uid with
       | none => false
       | some r =>
         if r.is_premium = false then false
         else
           match r.subscription_end with
           | some e => if e < now then false else true
           | none => true) := by
  unfold Models.is_user_premium
  repeat' split
  all_goals rfl

/-- C4: opening a conversation session stores exactly the transcription text
and artifact path, resolving it returns exactly that pair, and resolving
after the session is closed yields the session-expired outcome, both at the
session-store level and through `handle_translation`. -/
theorem c4_session_open_resolve_close :
    ∀ (sess sess2 : Option Session) (t p fn ft : String) (i : Int)
      (db : DB) (fs : List String) (lang : String) (tlRes : Option String),
      session_resolve (session_open sess t p fn ft i) = some (t, p) ∧
      session_resolve (session_close sess2) = none ∧
      (handle_translation db (session_close sess2) fs lang tlRes).2.2.2 =
        TransOutcome.session_expired := by
  intro sess sess2 t p fn ft i db fs lang tlRes
  exact ⟨rfl, rfl, rfl⟩

/-- C9: when the persistence store is unavailable (no pool, or reads raise),
`bot_simple.py` treats every user as non-premium with zero usage, so
`can_make_request` answers `(true, "free")` and the store is untouched. -/
theorem c9_degraded_mode_free :
    ∀ (db : DB) (uid : Nat) (now : Int) (today : Nat) (pool raises : Bool),
      pool = false ∨ raises = true →
      Simple.is_user_premium db uid now pool raises = (false, db) ∧
      Simple.get_daily_usage db uid today pool raises = 0 ∧
      Simple.can_make_request db uid now today pool raises = ((true, "free"), db) := by
  intro db uid now today pool raises h
  rcases h with h | h
  · subst h
    refine ⟨rfl, rfl, ?_⟩
    simp [Simple.can_make_request, Simple.is_user_premium, Simple.get_daily_usage,
      Simple.DAILY_FREE_REQUESTS]
  · subst h
    cases pool with
    | false =>
      refine ⟨rfl, rfl, ?_⟩
      simp [Simple.can_make_request, Simple.is_user_premium, Simple.get_daily_usage,
        Simple.DAILY_FREE_REQUESTS]
    | true =>
      refine ⟨rfl, rfl, ?_⟩
      simp [Simple.can_make_request, Simple.is_user_premium, Simple.get_daily_usage,
        Simple.DAILY_FREE_REQUESTS]

/-- C9 witness at a concrete store with a nonzero counter and a premium row:
with the pool gone the evaluation still answers `(true, "free")`. -/
theorem c9_degraded_mode_free_witness :
    Simple.can_make_request ⟨[(1, ⟨true, none, none⟩)], [((1, 0), 3)], 0⟩ 1 0 0 false false =
      ((true, "free"), ⟨[(1, ⟨true, none, none⟩)], [((1, 0), 3)], 0⟩) :=
  (c9_degraded_mode_free ⟨[(1, ⟨true, none, none⟩)], [((1, 0), 3)], 0⟩ 1 0 0 false false
    (Or.inl rfl)).2.2

/-- C10: the file-format classifier is total with exactly the three outcomes
`("audio", false)`, `("video", true)`, `("unsupported", false)`, and it
depends only on the lowercased filename, so extensions compare
case-insensitively. -/
theorem c10_file_format_classifier :
    ∀ f : String,
      (get_file_format f = ("audio", false) ∨ get_file_format f = ("video", true) ∨
        get_file_format f = ("unsupported", false)) ∧
      (∀ g : String, lowerStr f = lowerStr g → get_file_format f = get_file_format g) := by
  intro f
  constructor
  · unfold get_file_format
    dsimp only
    split
    · exact Or.inl rfl
    · split
      · exact Or.inr (Or.inl rfl)
      · exact Or.inr (Or.inr rfl)
  · intro g h
    unfold get_file_format
    rw [h]

/-- C10 witness: an upper-case extension classifies like the lower-case one. -/
theorem c10_file_format_classifier_witness :
    get_file_format "voice.MP3" = get_file_format "voice.mp3" ∧
    get_file_format "voice.mp3" = ("audio", false) :=
  ⟨(c10_file_format_classifier "voice.MP3").2 "voice.mp3" (by decide), by decide⟩

/-- C1: `can_make_request` answers `(true, "premium")` whenever the user is
premium after lazy-expiry correction — independently of the daily ledger —
and otherwise compares the counter of today (0 if absent) with the free limit:
strictly below ⇒ `(true, "free")`, at or above ⇒ `(false, "limit_exceeded")`
(the `denied` of the spec), while a day with no counter row is again free.  Stated
for both the `database/models.py` and the `bot_simple.py` implementation. -/
theorem c1_entitlement_evaluation :
    ∀ (db : DB) (uid : Nat) (now : Int) (today : Nat),
      ((Models.is_user_premium db uid now).1 = true →
        (Models.can_make_request db uid now today).1 = (true, "premium") ∧
        ∀ (u2 : List ((Nat × Nat) × Nat)) (h2 : Nat),
          (Models.can_make_request ⟨db.subs, u2, h2⟩ uid now today).1 = (true, "premium")) ∧
      ((Models.is_user_premium db uid now).1 = false →
        (Models.get_daily_usage db uid today < Config.DAILY_FREE_REQUESTS →
          (Models.can_make_request db uid now today).1 = (true, "free")) ∧
        (Config.DAILY_FREE_REQUESTS ≤ Models.get_daily_usage db uid today →
          (Models.can_make_request db uid now today).1 = (false, "limit_exceeded")) ∧
        (∀ day2 : Nat, lookupA db.usage (uid, day2) = none →
          (Models.can_make_request db uid now day2).1 = (true, "free"))) ∧
      ((Simple.is_user_premium db uid now true false).1 = true →
        (Simple.can_make_request db uid now today true false).1 = (true, "premium")) ∧
      ((Simple.is_user_premium db uid now true false).1 = false →
        (Simple.get_daily_usage db uid today true false < Simple.DAILY_FREE_REQUESTS →
          (Simple.can_make_request db uid now today true false).1 = (true, "free")) ∧
        (Simple.DAILY_FREE_REQUESTS ≤ Simple.get_daily_usage db uid today true false →
          (Simple.can_make_request db uid now today true false).1 = (false, "limit_exceeded"))) := by
  intro db uid now today
  refine ⟨?_, ?_, ?_, ?_⟩
  · intro hp
    constructor
    · simp [Models.can_make_request, hp]
    · intro u2 h2
      have hp2 : (Models.is_user_premium ⟨db.subs, u2, h2⟩ uid now).1 = true := by
        rw [models_is_user_premium_fst] at hp ⊢
        cases hd : db
        rw [hd] at hp
        exact hp
      simp [Models.can_make_request, hp2]
  · intro hp
    have husage : Models.get_daily_usage ((Models.is_user_premium db uid now).2) uid today =
        Models.get_daily_usage db uid today :=
      models_get_daily_usage_congr db _ uid today (models_is_user_premium_state db uid now).1
    refine ⟨?_, ?_, ?_⟩
    · intro hlt
      simp [Models.can_make_request, hp, husage, hlt]
    · intro hge
      simp [Models.can_make_request, hp, husage, Nat.not_lt.mpr hge]
    · intro day2 hnone
      have husage2 : Models.get_daily_usage ((Models.is_user_premium db uid now).2) uid day2 = 0 := by
        have := (models_is_user_premium_state db uid now).1
        unfold Models.get_daily_usage
        rw [this, hnone]
      simp [Models.can_make_request, hp, husage2, Config.DAILY_FREE_REQUESTS]
  · intro hp
    simp [Simple.can_make_request, hp]
  · intro hp
    have husage : Simple.get_daily_usage ((Simple.is_user_premium db uid now true false).2)
        uid today true false = Simple.get_daily_usage db uid today true false := by
      unfold Simple.get_daily_usage
      rw [simple_is_user_premium_usage]
    refine ⟨?_, ?_⟩
    · intro hlt
      simp [Simple.can_make_request, hp, husage, hlt]
    · intro hge
      simp [Simple.can_make_request, hp, husage, Nat.not_lt.mpr hge]

/-- C1 witness: a premium user, a free user under the limit, and a free user
at the limit, each on a concrete store. -/
theorem c1_entitlement_evaluation_witness :
    (Models.can_make_request ⟨[(1, ⟨true, none, none⟩)], [((1, 0), 7)], 0⟩ 1 0 0).1 =
      (true, "premium") ∧
    (Models.can_make_request ⟨[], [], 0⟩ 2 0 0).1 = (true, "free") ∧
    (Models.can_make_request ⟨[], [((3, 0), 1)], 0⟩ 3 0 0).1 = (false, "limit_exceeded") :=
  ⟨((c1_entitlement_evaluation ⟨[(1, ⟨true, none, none⟩)], [((1, 0), 7)], 0⟩ 1 0 0).1
      (by decide)).1,
   ((c1_entitlement_evaluation ⟨[], [], 0⟩ 2 0 0).2.1 (by decide)).1 (by decide),
   ((c1_entitlement_evaluation ⟨[], [((3, 0), 1)], 0⟩ 3 0 0).2.1 (by decide)).2.1 (by decide)⟩

/-- C3 counterexample: a subscription whose `end` equals `now` (so
`end <= now` as the claim reads).  Both implementations test the strict
`subscription_end < datetime.now()`, so the user is still treated as premium
and nothing is persisted — refuting the claim at `end = now`. -/
theorem c3_counterexample :
    (5 : Int) ≤ 5 ∧
    (Models.is_user_premium ⟨[(1, ⟨true, none, some 5⟩)], [], 0⟩ 1 5).1 = true ∧
    (Models.is_user_premium ⟨[(1, ⟨true, none, some 5⟩)], [], 0⟩ 1 5).2 =
      ⟨[(1, ⟨true, none, some 5⟩)], [], 0⟩ ∧
    (Simple.is_user_premium ⟨[(1, ⟨true, none, some 5⟩)], [], 0⟩ 1 5 true false).1 = true := by
  decide

/-- C3 amended: for a stored premium subscription whose `end` is strictly
before `now`, the evaluation treats the user as non-premium and persists
`is_premium = false`, so a subsequent read (and a repeated evaluation) sees
`is_premium = false`; in both implementations. -/
theorem c3_lazy_expiry_correction :
    ∀ (db : DB) (uid : Nat) (now e : Int) (r : SubRecord),
      lookupA db.subs uid = some r → r.is_premium = true →
      r.subscription_end = some e → e < now →
      (Models.is_user_premium db uid now).1 = false ∧
      lookupA ((Models.is_user_premium db uid now).2).subs uid =
        some { r with is_premium := false } ∧
      (Models.is_user_premium ((Models.is_user_premium db uid now).2) uid now).1 = false ∧
      (Simple.is_user_premium db uid now true false).1 = false ∧
      lookupA ((Simple.is_user_premium db uid now true false).2).subs uid =
        some { r with is_premium := false } := by
  intro db uid now e r hl hprem hend hlt
  have hm : Models.is_user_premium db uid now =
      (false, { db with subs := setA db.subs uid ({ r with is_premium := false }) }) := by
    unfold Models.is_user_premium
    rw [hl]
    simp [hprem, hend, hlt]
  have hs : Simple.is_user_premium db uid now true false =
      (false, { db with subs := setA db.subs uid ({ r with is_premium := false }) }) := by
    unfold Simple.is_user_premium
    rw [hl]
    simp [hprem, hend, hlt]
  refine ⟨by rw [hm], ?_, ?_, by rw [hs], ?_⟩
  · rw [hm]
    exact lookupA_setA_self db.subs uid _
  · rw [hm]
    unfold Models.is_user_premium
    rw [lookupA_setA_self]
    simp
  · rw [hs]
    exact lookupA_setA_self db.subs uid _

/-- C3 witness for the amended theorem: an expired premium row is corrected
and a later read sees `is_premium = false`. -/
theorem c3_lazy_expiry_correction_witness :
    (Models.is_user_premium ⟨[(1, ⟨true, some 0, some 3⟩)], [], 0⟩ 1 4).1 = false ∧
    lookupA ((Models.is_user_premium ⟨[(1, ⟨true, some 0, some 3⟩)], [], 0⟩ 1 4).2).subs 1 =
      some ⟨false, some 0, some 3⟩ :=
  ⟨(c3_lazy_expiry_correction ⟨[(1, ⟨true, some 0, some 3⟩)], [], 0⟩ 1 4 3
      ⟨true, some 0, some 3⟩ (by decide) (by decide) (by decide) (by decide)).1,
   (c3_lazy_expiry_correction ⟨[(1, ⟨true, some 0, some 3⟩)], [], 0⟩ 1 4 3
      ⟨true, some 0, some 3⟩ (by decide) (by decide) (by decide) (by decide)).2.1⟩

/-- C5: the daily ledger behaves as an upsert counter — a read with no row
for today yields 0, the first increment of the day inserts and returns 1,
an increment over an existing count `c` returns `c + 1` and a subsequent
read sees it, and `n ≤ DailyFreeLimit` increments starting from an absent
row leave the read at exactly `n`. -/
theorem c5_upsert_counter :
    ∀ (db : DB) (uid today n : Nat),
      lookupA db.usage (uid, today) = none →
      n ≤ Config.DAILY_FREE_REQUESTS →
      Models.get_daily_usage db uid today = 0 ∧
      (Models.increment_daily_usage db uid today).1 = 1 ∧
      Models.get_daily_usage (iterIncr db uid today n) uid today = n ∧
      (∀ (db2 : DB) (c : Nat), lookupA db2.usage (uid, today) = some c →
        (Models.increment_daily_usage db2 uid today).1 = c + 1 ∧
        Models.get_daily_usage ((Models.increment_daily_usage db2 uid today).2) uid today
          = c + 1) := by
  intro db uid today n hnone hlim
  have hiter : ∀ m : Nat, lookupA (iterIncr db uid today m).usage (uid, today) =
      if m = 0 then none else some m := by
    intro m
    induction m with
    | zero => simpa using hnone
    | succ k ih =>
      show lookupA ((Models.increment_daily_usage (iterIncr db uid today k) uid today).2).usage
          (uid, today) = _
      unfold Models.increment_daily_usage
      cases hk : k with
      | zero =>
        rw [hk] at ih
        simp only [ih]
        simp [lookupA_setA_self]
      | succ j =>
        rw [hk] at ih
        simp only [ih]
        simp [lookupA_setA_self]
  refine ⟨?_, ?_, ?_, ?_⟩
  · unfold Models.get_daily_usage
    rw [hnone]
  · unfold Models.increment_daily_usage
    rw [hnone]
  · unfold Models.get_daily_usage
    rw [hiter n]
    cases n with
    | zero => simp
    | succ k => simp
  · intro db2 c hc
    have h := models_increment_get db2 uid today
    have hget : Models.get_daily_usage db2 uid today = c := by
      unfold Models.get_daily_usage
      rw [hc]
    rw [hget] at h
    exact ⟨h.2, h.1⟩

/-- C5 witness: from an empty ledger, one increment (the free limit of
`bot/config.py`) leaves the read at exactly 1, and incrementing over an
existing count 5 returns 6. -/
theorem c5_upsert_counter_witness :
    Models.get_daily_usage ⟨[], [], 0⟩ 1 0 = 0 ∧
    Models.get_daily_usage (iterIncr ⟨[], [], 0⟩ 1 0 1) 1 0 = 1 ∧
    (Models.increment_daily_usage ⟨[], [((1, 0), 5)], 0⟩ 1 0).1 = 6 :=
  ⟨(c5_upsert_counter ⟨[], [], 0⟩ 1 0 1 (by decide) (by decide)).1,
   (c5_upsert_counter ⟨[], [], 0⟩ 1 0 1 (by decide) (by decide)).2.2.1,
   ((c5_upsert_counter ⟨[], [], 0⟩ 1 0 1 (by decide) (by decide)).2.2.2
      ⟨[], [((1, 0), 5)], 0⟩ 5 (by decide)).1⟩

/-- C7 counterexample: for a user with no subscription row, the
`database/models.py` activation is a bare `UPDATE` that matches nothing, so
the store is unchanged and the evaluation right after activation answers
`(true, "free")`, not premium — refuting the claim for that user. -/
theorem c7_counterexample :
    Models.activate_premium_subscription ⟨[], [], 0⟩ 1 0 30 = ⟨[], [], 0⟩ ∧
    (Models.can_make_request (Models.activate_premium_subscription ⟨[], [], 0⟩ 1 0 30)
        1 0 0).1 = (true, "free") := by
  decide

/-- C7 amended: activation makes the evaluation answer premium immediately
(same `now`), independent of the daily count, and leaves the usage ledger
untouched — unconditionally for the `bot_simple.py` upsert, and for the
`database/models.py` `UPDATE` only when a subscription row already exists. -/
theorem c7_activation_premium :
    ∀ (db : DB) (uid : Nat) (now : Int) (today : Nat) (d : Nat),
      ((Simple.can_make_request
          (Simple.activate_premium_subscription db uid now d true false)
          uid now today true false).1 = (true, "premium") ∧
        (Simple.activate_premium_subscription db uid now d true false).usage = db.usage) ∧
      (∀ r : SubRecord, lookupA db.subs uid = some r →
        (Models.can_make_request (Models.activate_premium_subscription db uid now d)
            uid now today).1 = (true, "premium") ∧
        (Models.activate_premium_subscription db uid now d).usage = db.usage) := by
  intro db uid now today d
  have hnotlt : ¬ (now + (d : Int) < now) := by
    have : (0 : Int) ≤ (d : Int) := Int.ofNat_nonneg d
    omega
  constructor
  · constructor
    · have hact : Simple.activate_premium_subscription db uid now d true false =
          { db with subs := setA db.subs uid ⟨true, some now, some (now + (d : Int))⟩ } := by
        unfold Simple.activate_premium_subscription
        simp
      rw [hact]
      have hprem : (Simple.is_user_premium
          ({ db with subs := setA db.subs uid ⟨true, some now, some (now + (d : Int))⟩ })
          uid now true false).1 = true := by
        unfold Simple.is_user_premium
        rw [lookupA_setA_self]
        simp [hnotlt]
      simp [Simple.can_make_request, hprem]
    · unfold Simple.activate_premium_subscription
      simp
  · intro r hr
    have hact : Models.activate_premium_subscription db uid now d =
        { db with subs := setA db.subs uid ⟨true, some now, some (now + (d : Int))⟩ } := by
      unfold Models.activate_premium_subscription
      rw [hr]
    constructor
    · rw [hact]
      have hprem : (Models.is_user_premium
          ({ db with subs := setA db.subs uid ⟨true, some now, some (now + (d : Int))⟩ })
          uid now).1 = true := by
        unfold Models.is_user_premium
        rw [lookupA_setA_self]
        simp [hnotlt]
      simp [Models.can_make_request, hprem]
    · rw [hact]

/-- C7 witness: activating for a user whose row exists (and whose counter is
at the limit) makes both evaluations answer premium with the ledger intact. -/
theorem c7_activation_premium_witness :
    (Models.can_make_request
        (Models.activate_premium_subscription
          ⟨[(1, ⟨false, none, none⟩)], [((1, 0), 9)], 0⟩ 1 0 30) 1 0 0).1 =
      (true, "premium") ∧
    (Models.activate_premium_subscription
        ⟨[(1, ⟨false, none, none⟩)], [((1, 0), 9)], 0⟩ 1 0 30).usage = [((1, 0), 9)] ∧
    (Simple.can_make_request
        (Simple.activate_premium_subscription ⟨[], [((1, 0), 9)], 0⟩ 1 0 30 true false)
        1 0 0 true false).1 = (true, "premium") :=
  ⟨((c7_activation_premium ⟨[(1, ⟨false, none, none⟩)], [((1, 0), 9)], 0⟩ 1 0 0 30).2
      ⟨false, none, none⟩ (by decide)).1,
   ((c7_activation_premium ⟨[(1, ⟨false, none, none⟩)], [((1, 0), 9)], 0⟩ 1 0 0 30).2
      ⟨false, none, none⟩ (by decide)).2,
   (c7_activation_premium ⟨[], [((1, 0), 9)], 0⟩ 1 0 0 30).1.1⟩

/-- C8 counterexample: in `database/models.py`, evaluating a user with no
subscription row returns non-premium but creates no record — the store still
has no row afterwards, refuting the lazy-creation claim for that variant. -/
theorem c8_counterexample :
    (Models.is_user_premium ⟨[], [], 0⟩ 1 0).1 = false ∧
    (Models.is_user_premium ⟨[], [], 0⟩ 1 0).2 = ⟨[], [], 0⟩ ∧
    lookupA ((Models.is_user_premium ⟨[], [], 0⟩ 1 0).2).subs 1 = none := by
  decide

/-- C8 amended: in the `bot_simple.py` variant the first evaluation of an
absent user lazily inserts the default non-premium row, returns non-premium,
and repeating the evaluation is idempotent on that record; in the
`database/models.py` variant the evaluation returns non-premium and leaves
the store unchanged (the row is created elsewhere, by `get_or_create_user`). -/
theorem c8_lazy_default_record :
    ∀ (db : DB) (uid : Nat) (now : Int),
      lookupA db.subs uid = none →
      (Simple.is_user_premium db uid now true false).1 = false ∧
      lookupA ((Simple.is_user_premium db uid now true false).2).subs uid =
        some ⟨false, none, none⟩ ∧
      Simple.is_user_premium ((Simple.is_user_premium db uid now true false).2)
          uid now true false =
        (false, (Simple.is_user_premium db uid now true false).2) ∧
      Models.is_user_premium db uid now = (false, db) := by
  intro db uid now hnone
  have hs : Simple.is_user_premium db uid now true false =
      (false, { db with subs := setA db.subs uid ⟨false, none, none⟩ }) := by
    unfold Simple.is_user_premium
    rw [hnone]
    simp
  refine ⟨by rw [hs], ?_, ?_, ?_⟩
  · rw [hs]
    exact lookupA_setA_self db.subs uid _
  · rw [hs]
    unfold Simple.is_user_premium
    rw [lookupA_setA_self]
    simp
  · unfold Models.is_user_premium
    rw [hnone]

/-- C8 witness: a concrete absent user — `bot_simple.py` inserts the default
row and stays idempotent, `database/models.py` leaves the store unchanged. -/
theorem c8_lazy_default_record_witness :
    lookupA ((Simple.is_user_premium ⟨[], [], 0⟩ 7 0 true false).2).subs 7 =
      some ⟨false, none, none⟩ ∧
    Models.is_user_premium ⟨[], [], 0⟩ 7 0 = (false, ⟨[], [], 0⟩) :=
  ⟨(c8_lazy_default_record ⟨[], [], 0⟩ 7 0 (by decide)).2.1,
   (c8_lazy_default_record ⟨[], [], 0⟩ 7 0 (by decide)).2.2.2⟩

theorem status_to_outcome_ne (s : String) :
    status_to_outcome s ≠ MediaOutcome.transcription_complete := by
  unfold status_to_outcome
  repeat' split
  all_goals simp

/-- C6: on the language-selected path with a live session, success and
failure of the translation both end with the session closed, the artifact
path absent from the filesystem, and the usage ledger untouched; a falsy or
raising translation surfaces the translation-failed outcome instead of
propagating the error. -/
theorem c6_translation_failure_cleanup :
    ∀ (db : DB) (s : Session) (fs : List String) (lang : String)
      (tlRes : Option String),
      s.file_path.isEmpty = false →
      (handle_translation db (some s) fs lang tlRes).2.1 = none ∧
      s.file_path ∉ (handle_translation db (some s) fs lang tlRes).2.2.1 ∧
      ((handle_translation db (some s) fs lang tlRes).1).usage = db.usage ∧
      (pyFalsy tlRes = true →
        (handle_translation db (some s) fs lang tlRes).2.2.2 =
          TransOutcome.translation_failed) ∧
      (pyFalsy tlRes = false →
        (handle_translation db (some s) fs lang tlRes).2.2.2 =
          TransOutcome.translation_complete) := by
  intro db s fs lang tlRes hne
  have hrm := removeFile_not_mem fs s.file_path hne
  unfold handle_translation
  cases hf : pyFalsy tlRes with
  | true =>
    simp [session_resolve, session_close, hf, hrm]
  | false =>
    simp [session_resolve, session_close, hf, Models.add_request_history, hrm]

/-- C6 witness: a live session with a real artifact; the failing translation
closes the session, deletes the artifact, keeps the ledger, and surfaces the
translation-failed outcome. -/
theorem c6_translation_failure_cleanup_witness :
    (handle_translation ⟨[], [((1, 0), 1)], 0⟩ (some ⟨"hi", "/tmp/a.mp3", "a.mp3", "audio", 0⟩)
        ["/tmp/a.mp3"] "es" none).2.1 = none ∧
    "/tmp/a.mp3" ∉ (handle_translation ⟨[], [((1, 0), 1)], 0⟩
        (some ⟨"hi", "/tmp/a.mp3", "a.mp3", "audio", 0⟩) ["/tmp/a.mp3"] "es" none).2.2.1 ∧
    ((handle_translation ⟨[], [((1, 0), 1)], 0⟩
        (some ⟨"hi", "/tmp/a.mp3", "a.mp3", "audio", 0⟩) ["/tmp/a.mp3"] "es" none).1).usage =
      [((1, 0), 1)] ∧
    (handle_translation ⟨[], [((1, 0), 1)], 0⟩
        (some ⟨"hi", "/tmp/a.mp3", "a.mp3", "audio", 0⟩) ["/tmp/a.mp3"] "es" none).2.2.2 =
      TransOutcome.translation_failed := by
  have h := c6_translation_failure_cleanup ⟨[], [((1, 0), 1)], 0⟩
    ⟨"hi", "/tmp/a.mp3", "a.mp3", "audio", 0⟩ ["/tmp/a.mp3"] "es" none (by decide)
  exact ⟨h.1, h.2.1, h.2.2.1, h.2.2.2.1 (by decide)⟩

/-- C2: on the media-received path, whenever the handler stops before the
transcription-complete outcome (denied, bad input, download / extraction /
transcription / processing failure), the ledger and session are unchanged;
when it succeeds and the entitlement class was `"free"`, the daily counter
goes up by exactly one; and when the class was `"premium"` the ledger is
never touched. -/
theorem c2_free_ledger_charged_once :
    ∀ (db : DB) (uid : Nat) (now : Int) (today : Nat) (sess : Option Session)
      (ev : MediaEvent) (stime : Int) (gfo : Bool) (dl : Option String)
      (pex extOk : Bool) (trR tlR : Option String),
      ((handle_media_file db uid now today sess ev stime gfo dl pex extOk trR tlR).2.2 ≠
          MediaOutcome.transcription_complete →
        ((handle_media_file db uid now today sess ev stime gfo dl pex extOk trR tlR).1).usage
            = db.usage ∧
        (handle_media_file db uid now today sess ev stime gfo dl pex extOk trR tlR).2.1
            = sess) ∧
      ((handle_media_file db uid now today sess ev stime gfo dl pex extOk trR tlR).2.2 =
          MediaOutcome.transcription_complete →
        (Models.can_make_request db uid now today).1.2 = "free" →
        Models.get_daily_usage
            ((handle_media_file db uid now today sess ev stime gfo dl pex extOk trR tlR).1)
            uid today
          = Models.get_daily_usage db uid today + 1) ∧
      ((Models.can_make_request db uid now today).1.2 = "premium" →
        ((handle_media_file db uid now today sess ev stime gfo dl pex extOk trR tlR).1).usage
            = db.usage) := by
  intro db uid now today sess ev stime gfo dl pex extOk trR tlR
  have hstate := (models_can_make_request_state db uid now today).1
  have hinc := models_increment_get ((Models.can_make_request db uid now today).2) uid today
  have hcong : Models.get_daily_usage ((Models.can_make_request db uid now today).2) uid today
      = Models.get_daily_usage db uid today :=
    models_get_daily_usage_congr db _ uid today hstate
  simp only [handle_media_file]
  split
  · exact ⟨fun _ => ⟨hstate, rfl⟩, fun h => absurd h (by simp), fun _ => hstate⟩
  · split
    · exact ⟨fun _ => ⟨hstate, rfl⟩, fun h => absurd h (by simp), fun _ => hstate⟩
    · split
      · exact ⟨fun _ => ⟨hstate, rfl⟩, fun h => absurd h (by simp), fun _ => hstate⟩
      · split
        · exact ⟨fun _ => ⟨hstate, rfl⟩, fun h => absurd h (by simp), fun _ => hstate⟩
        · split
          · exact ⟨fun _ => ⟨hstate, rfl⟩, fun h => absurd h (by simp), fun _ => hstate⟩
          · split
            · exact ⟨fun _ => ⟨hstate, rfl⟩, fun h => absurd h (by simp), fun _ => hstate⟩
            · split
              · exact ⟨fun _ => ⟨hstate, rfl⟩,
                  fun h => absurd h (status_to_outcome_ne _), fun _ => hstate⟩
              · split
                · rename_i hfree
                  refine ⟨fun h => absurd rfl h, fun _ _ => ?_, fun hprem => absurd hprem hfree⟩
                  exact hinc.1.trans (by rw [hcong])
                · rename_i hprem
                  have hpeq := not_not.mp hprem
                  refine ⟨fun h => absurd rfl h, fun _ hfree => ?_, fun _ => hstate⟩
                  rw [hpeq] at hfree
                  exact absurd hfree (by decide)

/-- C2 witness: a free-tier user with an empty ledger uploads a good audio
file; the run ends transcription-complete and the counter reads exactly one
more than before. -/
theorem c2_free_ledger_charged_once_witness :
    Models.get_daily_usage
        ((handle_media_file ⟨[], [], 0⟩ 1 0 0 none ⟨true, "a.mp3", some 10⟩ 0 true
            (some "/tmp/a.mp3") false true (some "hi") (some "ho")).1) 1 0
      = Models.get_daily_usage ⟨[], [], 0⟩ 1 0 + 1 :=
  (c2_free_ledger_charged_once ⟨[], [], 0⟩ 1 0 0 none ⟨true, "a.mp3", some 10⟩ 0 true
      (some "/tmp/a.mp3") false true (some "hi") (some "ho")).2.1 (by decide) (by decide)
